import Mathlib

/-!
Verification of the medical-camp data engine (src/main.py) against its
specification.

Modelling conventions used throughout this file:
* Python floats are modelled by `ℚ`; `round(x, 1)` is modelled as rounding
  to the nearest tenth.
* Optional numeric fields that the program stores as either the empty
  string or a numeric string (Blood Sugar, Weight, Height, BMI) are
  modelled as `Option ℚ`; the Blood Pressure field, stored by
  `add_patient` as either the empty string or a string of the shape
  systolic/diastolic with two integers, is modelled as
  `Option (Int × Int)` with `none` for the empty string.
* Python truthiness of a string (`if comment:`) is the test `comment ≠ ""`.
* Fallible conversions (`float(...)` raising `ValueError`,
  `ZeroDivisionError`) are modelled with `Option`.
-/

/-! ## Advisory strings emitted by the classifiers (verbatim from main.py) -/

def crisisBpMsg : String := "🚨 HYPERTENSIVE CRISIS - Emergency medical care needed"

def highBpMsg : String := "🚨 HIGH BP - Immediate medical attention"

def medBpMsg : String := "⚠️ BP Slightly higher than normal. Consider consulting doctor."

def elevBpMsg : String := "⚡ ELEVATED BP - Lifestyle changes recommended"

def normalBpMsg : String := "✅ BP is normal."

def lowBpMsg : String := "⚠️ BP is lower than normal."

def recordedBpMsg : String := "📋 BP recorded"

def invalidBpMsg : String := "❌ Invalid format. Use systolic/diastolic (e.g., 120/80)"

/-! ## Blood-pressure classifier (`analyze_blood_pressure`, main.py lines 158-184) -/

/-- Numeric core of `analyze_blood_pressure`: the chained `if`/`elif`
cascade on the parsed systolic and diastolic integers, in source order. -/
def bpClassify (s d : Int) : String :=
  if 180 ≤ s ∨ 120 ≤ d then crisisBpMsg
  else if (140 ≤ s ∧ s ≤ 179) ∨ (90 ≤ d ∧ d ≤ 119) then highBpMsg
  else if (130 ≤ s ∧ s ≤ 139) ∨ (80 ≤ d ∧ d ≤ 89) then medBpMsg
  else if (120 ≤ s ∧ s ≤ 129) ∧ d < 80 then elevBpMsg
  else if s < 120 ∧ d < 80 then normalBpMsg
  else if s < 90 ∨ d < 60 then lowBpMsg
  else recordedBpMsg

/-- `analyze_blood_pressure` on the stored Blood Pressure field.  On the
empty field (`none`, i.e. `not bp_str`) the source returns the
invalid-format message, NOT the empty string; on a stored pair it runs the
numeric cascade. -/
def analyze_blood_pressure : Option (Int × Int) → String
  | none => invalidBpMsg
  | some (s, d) => bpClassify s d

/-- First-match evaluation of an ordered rule list: the message of the
first entry whose condition holds, else the default. -/
def firstMatchMsg : List (Bool × String) → String → String
  | [], dflt => dflt
  | (c, m) :: rest, dflt => if c then m else firstMatchMsg rest dflt

/-- The documented blood-pressure bands, in the documented order (spec
section 4.3), as an explicit ordered rule list. -/
def bpBandList (s d : Int) : List (Bool × String) :=
  [ (decide (180 ≤ s ∨ 120 ≤ d), crisisBpMsg),
    (decide ((140 ≤ s ∧ s ≤ 179) ∨ (90 ≤ d ∧ d ≤ 119)), highBpMsg),
    (decide ((130 ≤ s ∧ s ≤ 139) ∨ (80 ≤ d ∧ d ≤ 89)), medBpMsg),
    (decide ((120 ≤ s ∧ s ≤ 129) ∧ d < 80), elevBpMsg),
    (decide (s < 120 ∧ d < 80), normalBpMsg),
    (decide (s < 90 ∨ d < 60), lowBpMsg) ]

/-- The specification's reading of the classifier: first matching band in
the fixed documented order wins, with the final fallback "BP recorded". -/
def classifyBpSpec (s d : Int) : String :=
  firstMatchMsg (bpBandList s d) recordedBpMsg

/-! ## Blood-sugar classifier (`analyze_blood_sugar`, main.py lines 186-209) -/

def lowSugarMsg : String := "⚠️ LOW SUGAR - Hypoglycemia risk"

def normalSugarMsg : String := "✅ NORMAL SUGAR - Good glucose level"

def borderSugarMsg : String := "⚡ BORDERLINE - Monitor glucose levels"

def highSugarMsg : String := "⚠️ HIGH SUGAR - Pre-diabetic range"

def veryHighSugarMsg : String := "🚨 VERY HIGH SUGAR - Diabetic range, see doctor"

def analyze_blood_sugar : Option ℚ → String
  | none => ""
  | some g =>
    if g < 39/10 then lowSugarMsg
    else if 39/10 ≤ g ∧ g < 56/10 then normalSugarMsg
    else if 56/10 ≤ g ∧ g < 78/10 then borderSugarMsg
    else if 78/10 ≤ g ∧ g < 111/10 then highSugarMsg
    else if 111/10 ≤ g then veryHighSugarMsg
    else "📋 Sugar level recorded"

/-! ## BMI classifier (`analyze_bmi_health`, main.py lines 211-235) -/

def sevUnderMsg : String := "🚨 SEVERELY UNDERWEIGHT - Nutritional support needed"

def underMsg : String := "⚠️ UNDERWEIGHT - Increase caloric intake"

def healthyMsg : String := "✅ HEALTHY WEIGHT - Maintain current lifestyle"

def overMsg : String := "⚡ OVERWEIGHT - Diet and exercise recommended"

def obeseMsg : String := "⚠️ OBESE - Medical consultation advised"

def sevObeseMsg : String := "🚨 SEVERELY OBESE - Immediate medical attention"

def morbidObeseMsg : String := "🚨 MORBIDLY OBESE - Urgent medical intervention"

def analyze_bmi_health : Option ℚ → String
  | none => ""
  | some v =>
    if v < 16 then sevUnderMsg
    else if 16 ≤ v ∧ v < 37/2 then underMsg
    else if 37/2 ≤ v ∧ v < 25 then healthyMsg
    else if 25 ≤ v ∧ v < 30 then overMsg
    else if 30 ≤ v ∧ v < 35 then obeseMsg
    else if 35 ≤ v ∧ v < 40 then sevObeseMsg
    else morbidObeseMsg

/-! ## BMI categories (`categorize_bmi`, main.py lines 95-114) -/

def categorize_bmi (v : ℚ) : String :=
  if v < 16 then "Severely Underweight"
  else if 16 ≤ v ∧ v < 37/2 then "Underweight"
  else if 37/2 ≤ v ∧ v < 25 then "Normal"
  else if 25 ≤ v ∧ v < 30 then "Overweight"
  else if 30 ≤ v ∧ v < 35 then "Obese Class I"
  else if 35 ≤ v ∧ v < 40 then "Obese Class II"
  else "Obese Class III"

/-- The specification's reading of the BMI categories: a partition of the
value line into half-open intervals, here written top-down so that the
final documented band `40 ≤ v` is an explicit guard. -/
def categorizeBmiSpec (v : ℚ) : String :=
  if 40 ≤ v then "Obese Class III"
  else if 35 ≤ v then "Obese Class II"
  else if 30 ≤ v then "Obese Class I"
  else if 25 ≤ v then "Overweight"
  else if 37/2 ≤ v then "Normal"
  else if 16 ≤ v then "Underweight"
  else "Severely Underweight"

/-! ## BMI calculator (`calculate_bmi`, main.py lines 84-93) -/

/-- Rounding to one decimal place, the `round(bmi, 1)` of the source. -/
def pyRound1 (q : ℚ) : ℚ := (round (q * 10) : ℤ) / 10

/-- `calculate_bmi`: non-numeric input (`ValueError`) is `none`; a zero
height makes `weight_kg / height_m ** 2` raise `ZeroDivisionError`, also
giving the empty sentinel, modelled by the zero guard. -/
def calculate_bmi (weight height_cm : Option ℚ) : Option ℚ :=
  match weight, height_cm with
  | some w, some h =>
    if h = 0 then none
    else some (pyRound1 (w / (h / 100) ^ 2))
  | _, _ => none

/-! ## Height conversion (`feet_to_cm`, main.py lines 116-145)

The source pipeline on the raw text is: `strip().lower()`, delete the
unit words feet/foot/ft/inches/inch/in at word boundaries, replace the
two kinds of quote mark by spaces, then collect the numeric tokens
`\d+\.?\d*` left to right and convert each with `float`.  All stages are
reproduced below on `List Char`; the two scanners use a fuel argument
equal to the input length (each step consumes at least one character, so
the fuel never runs out). -/

def squote : Char := Char.ofNat 39

def dquote : Char := '"'

def spaceChar : Char := ' '

def dotChar : Char := '.'

def underscoreChar : Char := '_'

/-- Word characters for the regex word boundary: alphanumerics and the
underscore. -/
def isWordChar (c : Char) : Bool := c.isAlphanum || c == underscoreChar

/-- The unit words removed by the source, in the alternation order of its
pattern. -/
def unitWords : List (List Char) :=
  ["feet".toList, "foot".toList, "ft".toList, "inches".toList, "inch".toList, "in".toList]

def startsWithL : List Char → List Char → Bool
  | [], _ => true
  | _ :: _, [] => false
  | a :: as, b :: bs => a == b && startsWithL as bs

/-- Try to match one unit word at the head of `l`.  `prevWord` says
whether the preceding character of the original text is a word character;
every unit word starts and ends with a word character, so the leading
word boundary holds exactly when `prevWord` is false and the trailing one
exactly when the next character is absent or not a word character.
Returns the last character of the word (the new preceding character) and
the remaining text. -/
def matchUnitWord (prevWord : Bool) (l : List Char) : Option (Char × List Char) :=
  if prevWord then none
  else
    unitWords.findSome? fun w =>
      if startsWithL w l then
        match l.drop w.length with
        | [] => some (w.getLastD spaceChar, [])
        | c :: rest => if isWordChar c then none else some (w.getLastD spaceChar, c :: rest)
      else none

def removeWordsAux : Nat → Bool → List Char → List Char
  | 0, _, l => l
  | _ + 1, _, [] => []
  | fuel + 1, prevWord, c :: cs =>
    match matchUnitWord prevWord (c :: cs) with
    | some (lastc, rest) => removeWordsAux fuel (isWordChar lastc) rest
    | none => c :: removeWordsAux fuel (isWordChar c) cs

def removeWords (l : List Char) : List Char := removeWordsAux l.length false l

/-- Replace single and double quotes by spaces. -/
def replaceQuotes (l : List Char) : List Char :=
  l.map fun c => if c == dquote || c == squote then spaceChar else c

/-- `str.strip()`: drop whitespace from both ends. -/
def stripEnds (l : List Char) : List Char :=
  ((l.dropWhile Char.isWhitespace).reverse.dropWhile Char.isWhitespace).reverse

def cleanHeight (s : String) : List Char :=
  replaceQuotes (removeWords ((stripEnds s.toList).map Char.toLower))

def takeDigits : List Char → List Char × List Char
  | [] => ([], [])
  | c :: cs =>
    if c.isDigit then
      let r := takeDigits cs
      (c :: r.1, r.2)
    else ([], c :: cs)

/-- Left-to-right collection of the maximal tokens matching `\d+\.?\d*`:
a nonempty digit run, an optional dot, a possibly empty digit run.  Each
token is returned as (integer part, fractional part). -/
def tokenizeAux : Nat → List Char → List (List Char × List Char)
  | 0, _ => []
  | _ + 1, [] => []
  | fuel + 1, c :: cs =>
    if c.isDigit then
      let p := takeDigits (c :: cs)
      match p.2 with
      | [] => [(p.1, [])]
      | d :: rest =>
        if d == dotChar then
          let q := takeDigits rest
          (p.1, q.1) :: tokenizeAux fuel q.2
        else (p.1, []) :: tokenizeAux fuel (d :: rest)
    else tokenizeAux fuel cs

def tokenizePairs (l : List Char) : List (List Char × List Char) := tokenizeAux l.length l

def digitsToNat (l : List Char) : Nat :=
  l.foldl (fun a c => 10 * a + (c.toNat - 48)) 0

/-- `float` on a matched token. -/
def tokenVal (t : List Char × List Char) : ℚ :=
  (digitsToNat t.1 : ℚ) + (digitsToNat t.2 : ℚ) / (10 : ℚ) ^ t.2.length

/-- `re.findall` of the numeric tokens followed by `float`, after the
cleanup stages. -/
def extractNumbers (s : String) : List ℚ :=
  (tokenizePairs (cleanHeight s)).map tokenVal

/-- `feet_to_cm`: dispatch on the number of numeric tokens exactly as the
source does. -/
def feet_to_cm (s : String) : Option ℚ :=
  match extractNumbers s with
  | [num] => if num > 10 then some num else some (num * (3048/100))
  | [f, i] => some ((f * 12 + i) * (254/100))
  | _ => none

/-- The specification's reading of the conversion policy, phrased over
the token count and values. -/
def heightToCmSpec (s : String) : Option ℚ :=
  let ts := extractNumbers s
  if ts.length = 1 then
    let n := ts.headD 0
    if 10 < n then some n else some (n * (3048/100))
  else if ts.length = 2 then
    some ((ts.headD 0 * 12 + ts.getD 1 0) * (254/100))
  else none

/-- The height text 5'6 (built without a quote character in the source
of this file). -/
def sample56 : String := String.mk ['5', squote, '6']

/-! ## Patient records and advisory concatenation (`add_patient`, main.py lines 255-459) -/

/-- One patient record as assembled by `add_patient`.  The optional
numeric fields are stored by the source as the empty string or a numeric
string; they are modelled as `Option` values (`none` for the empty
string). -/
structure Patient where
  name : String
  age : Int
  gender : String
  phone : String
  bp : Option (Int × Int)
  bloodGroup : String
  sugar : Option ℚ
  weight : Option ℚ
  heightCm : Option ℚ
  bmi : Option ℚ
deriving DecidableEq

/-- The age-based observations appended by `add_patient` (lines 444-452),
an `if`/`elif` cascade producing at most one comment. -/
def age_comments (age : Int) : List String :=
  if 60 ≤ age then ["👴 SENIOR - Regular health checkups recommended"]
  else if age ≤ 2 then ["👶 INFANT - Pediatric care recommended"]
  else if age ≤ 12 then ["🧒 CHILD - Growth monitoring important"]
  else if age ≤ 19 then ["👦 ADOLESCENT - Developmental checkups advised"]
  else []

/-- The Health Comments list built by `add_patient` (lines 426-454): the
classifier outputs in the fixed order BP, sugar, BMI, age band, keeping a
classifier result only when it is a nonempty string. -/
def health_comments (p : Patient) : List String :=
  (if analyze_blood_pressure p.bp = "" then [] else [analyze_blood_pressure p.bp]) ++
  (if analyze_blood_sugar p.sugar = "" then [] else [analyze_blood_sugar p.sugar]) ++
  (if analyze_bmi_health p.bmi = "" then [] else [analyze_bmi_health p.bmi]) ++
  age_comments p.age

/-! ## Health alerts (`_create_health_alerts_sheet`, main.py lines 764-946) -/

def infixOfL (pat : List Char) : List Char → Bool
  | [] => pat.isEmpty
  | c :: cs => startsWithL pat (c :: cs) || infixOfL pat cs

/-- Python's substring test `pat in s`. -/
def pyIn (pat s : String) : Bool := infixOfL pat.toList s.toList

structure AlertEntry where
  name : String
  age : Int
  gender : String
  phone : String
  alerts : List String
  priority : String
deriving DecidableEq

/-- The per-patient alert classification of the alerts sheet (lines
780-827): keyword tests against the advisory strings, accumulating the
matching advisories and a priority that starts LOW, never drops, and is
raised to HIGH by the first group of keywords and to MEDIUM (when not
already HIGH) by the second. -/
def classifyPatientAlert (p : Patient) : Option AlertEntry :=
  let bpc := analyze_blood_pressure p.bp
  let s1 : List String × String :=
    if pyIn "CRISIS" bpc || pyIn "STAGE 2" bpc then ([bpc], "HIGH")
    else if pyIn "STAGE 1" bpc || pyIn "LOW BP" bpc then ([bpc], "MEDIUM")
    else ([], "LOW")
  let sgc := analyze_blood_sugar p.sugar
  let s2 : List String × String :=
    if pyIn "VERY HIGH" sgc || pyIn "LOW SUGAR" sgc then (s1.1 ++ [sgc], "HIGH")
    else if pyIn "HIGH SUGAR" sgc then
      (s1.1 ++ [sgc], if s1.2 = "HIGH" then s1.2 else "MEDIUM")
    else s1
  let bmc := analyze_bmi_health p.bmi
  let s3 : List String × String :=
    if pyIn "SEVERELY" bmc || pyIn "MORBIDLY" bmc then (s2.1 ++ [bmc], "HIGH")
    else if pyIn "OBESE" bmc then
      (s2.1 ++ [bmc], if s2.2 = "HIGH" then s2.2 else "MEDIUM")
    else s2
  if s3.1 = [] then none
  else some ⟨p.name, p.age, p.gender, p.phone, s3.1, s3.2⟩

/-- The loop of `_create_health_alerts_sheet`: each record with alerts is
appended to the HIGH list when its priority is HIGH and to the MEDIUM
list otherwise, in input order. -/
def alertLoop : List Patient → List AlertEntry → List AlertEntry → List AlertEntry × List AlertEntry
  | [], high, medium => (high, medium)
  | p :: ps, high, medium =>
    match classifyPatientAlert p with
    | none => alertLoop ps high medium
    | some e =>
      if e.priority = "HIGH" then alertLoop ps (high ++ [e]) medium
      else alertLoop ps high (medium ++ [e])

def buildAlerts (ps : List Patient) : List AlertEntry × List AlertEntry :=
  alertLoop ps [] []

/-- Record with a CRITICAL blood pressure (systolic 190) and a borderline
blood sugar of 6.0 mmol per litre. -/
def pCrit : Patient :=
  { name := "Patient A", age := 50, gender := "Male", phone := "",
    bp := some (190, 100), bloodGroup := "", sugar := some 6,
    weight := none, heightCm := none, bmi := none }

/-- The alert entry produced for `pCrit`. -/
def eCrit : AlertEntry :=
  { name := "Patient A", age := 50, gender := "Male", phone := "",
    alerts := [crisisBpMsg], priority := "HIGH" }

/-- Record whose only vital is a blood pressure in the clinical HIGH band
(150 over 95). -/
def pHighBand : Patient :=
  { name := "Patient C", age := 45, gender := "Male", phone := "",
    bp := some (150, 95), bloodGroup := "", sugar := none,
    weight := none, heightCm := none, bmi := none }

/-- Record whose only vital is a blood pressure in the clinical MEDIUM
band (135 over 85). -/
def pMedBand : Patient :=
  { name := "Patient D", age := 45, gender := "Male", phone := "",
    bp := some (135, 85), bloodGroup := "", sugar := none,
    weight := none, heightCm := none, bmi := none }

/-- Record with the Blood Pressure field left empty. -/
def pNoBp : Patient :=
  { name := "Patient B", age := 30, gender := "Female", phone := "",
    bp := none, bloodGroup := "", sugar := none,
    weight := none, heightCm := none, bmi := none }

/-! ## Population summary (`print_summary_report`, main.py lines 1178-1304,
and `_create_summary_sheet`, lines 948-1176) -/

def intMinL (l : List Int) : Option Int :=
  l.foldl (fun a v => match a with | none => some v | some m => some (min m v)) none

def intMaxL (l : List Int) : Option Int :=
  l.foldl (fun a v => match a with | none => some v | some m => some (max m v)) none

def qMinL (l : List ℚ) : Option ℚ :=
  l.foldl (fun a v => match a with | none => some v | some m => some (min m v)) none

def qMaxL (l : List ℚ) : Option ℚ :=
  l.foldl (fun a v => match a with | none => some v | some m => some (max m v)) none

/-- The fixed category keys of the source's `bmi_categories` dictionary,
in insertion order. -/
def bmiCategoryNames : List String :=
  ["Severely Underweight", "Underweight", "Normal", "Overweight",
   "Obese Class I", "Obese Class II", "Obese Class III"]

/-- The figures computed by the summary report: counts, percentage
breakdowns, age statistics, blood-group and BMI histograms, screening
coverage and the health-alert counts. -/
structure SummaryReport where
  total : Nat
  maleCount : Nat
  femaleCount : Nat
  malePct : ℚ
  femalePct : ℚ
  ageStats : Option (Int × Int × ℚ × Int)
  bgTested : Nat
  bgHist : List (String × Nat × ℚ)
  bmiMeasured : Nat
  bmiHist : List (String × Nat × ℚ)
  bmiAvg : Option ℚ
  bmiMin : Option ℚ
  bmiMax : Option ℚ
  sugarTested : Nat
  bpTested : Nat
  phoneProvided : Nat
  bgPct : ℚ
  sugarPct : ℚ
  bpPct : ℚ
  bmiPct : ℚ
  phonePct : ℚ
  highBp : Nat
  highSugar : Nat
  obese : Nat
  crisisBp : Nat
deriving DecidableEq

/-- `print_summary_report`: on an empty record collection the source
prints a no-data message and returns without producing any figures
(modelled as `none`); otherwise it computes the report in one pass over
the records. -/
def print_summary_report (ps : List Patient) : Option SummaryReport :=
  if ps.isEmpty then none
  else
    let n := ps.length
    let maleCount := (ps.filter fun p => p.gender.toLower = "male").length
    let femaleCount := n - maleCount
    let ages := (ps.map fun p => p.age).filter fun a => 0 ≤ a
    let sortedAges := List.insertionSort (fun a b : Int => a ≤ b) ages
    let ageStats :=
      if ages.isEmpty then none
      else some (((intMinL ages).getD 0, (intMaxL ages).getD 0,
                  (ages.sum : ℚ) / ages.length, sortedAges.getD (ages.length / 2) 0))
    let bgs := (ps.map fun p => p.bloodGroup.trim).filter fun g => g ≠ ""
    let bgTested := bgs.length
    let bgKeys := List.insertionSort (fun a b : String => a ≤ b) bgs.dedup
    let bgHist := bgKeys.map fun g =>
      let k := (bgs.filter fun x => x = g).length
      (g, k, (k : ℚ) / bgTested * 100)
    let bmiVals := ps.filterMap fun p => p.bmi
    let measured := bmiVals.length
    let bmiHist := bmiCategoryNames.filterMap fun c =>
      let k := (bmiVals.filter fun v => categorize_bmi v = c).length
      if 0 < k then some (c, k, (k : ℚ) / measured * 100) else none
    let sugarTested := (ps.filter fun p => p.sugar.isSome).length
    let bpTested := (ps.filter fun p => p.bp.isSome).length
    let phoneProvided := (ps.filter fun p => p.phone ≠ "").length
    some
      { total := n
        maleCount := maleCount
        femaleCount := femaleCount
        malePct := (maleCount : ℚ) / n * 100
        femalePct := (femaleCount : ℚ) / n * 100
        ageStats := ageStats
        bgTested := bgTested
        bgHist := bgHist
        bmiMeasured := measured
        bmiHist := bmiHist
        bmiAvg := if measured = 0 then none else some (bmiVals.sum / measured)
        bmiMin := qMinL bmiVals
        bmiMax := qMaxL bmiVals
        sugarTested := sugarTested
        bpTested := bpTested
        phoneProvided := phoneProvided
        bgPct := (bgTested : ℚ) / n * 100
        sugarPct := (sugarTested : ℚ) / n * 100
        bpPct := (bpTested : ℚ) / n * 100
        bmiPct := (measured : ℚ) / n * 100
        phonePct := (phoneProvided : ℚ) / n * 100
        highBp := (ps.filter fun p => pyIn "HIGH BP" (analyze_blood_pressure p.bp)).length
        highSugar := (ps.filter fun p => pyIn "HIGH SUGAR" (analyze_blood_sugar p.sugar)).length
        obese := (ps.filter fun p => pyIn "OBESE" (analyze_bmi_health p.bmi)).length
        crisisBp := (ps.filter fun p => pyIn "CRISIS" (analyze_blood_pressure p.bp)).length }

/-- The summary operation as a state transformer on the record
collection `self.data`: the source only reads the collection, so the
state component is returned unchanged next to the report. -/
def print_summary_report_run (data : List Patient) :
    List Patient × Option SummaryReport :=
  (data, print_summary_report data)

/-! ## Claim theorems for the classifiers -/

/-- Claim C1: the blood-pressure classification evaluates its overlapping
conditions in the fixed documented order with first match winning: for all
integers s and d the cascade agrees with the ordered band list
crisis, high, elevated-consider-doctor, elevated-lifestyle, normal, low,
recorded; in particular `bpClassify 135 95` is the HIGH "high BP" result
and not the elevated/MEDIUM one. -/
theorem bp_order_first_match (s d : Int) :
    bpClassify s d = classifyBpSpec s d ∧
    bpClassify 135 95 = highBpMsg ∧
    bpClassify 135 95 ≠ medBpMsg ∧
    analyze_blood_pressure (some (135, 95)) = highBpMsg := by
  refine ⟨?_, by decide, by decide, by decide⟩
  unfold bpClassify classifyBpSpec bpBandList firstMatchMsg
  by_cases h1 : 180 ≤ s ∨ 120 ≤ d
  · simp [h1]
  · by_cases h2 : (140 ≤ s ∧ s ≤ 179) ∨ (90 ≤ d ∧ d ≤ 119)
    · simp [firstMatchMsg, h1, h2]
    · by_cases h3 : (130 ≤ s ∧ s ≤ 139) ∨ (80 ≤ d ∧ d ≤ 89)
      · simp [firstMatchMsg, h1, h2, h3]
      · by_cases h4 : (120 ≤ s ∧ s ≤ 129) ∧ d < 80
        · simp [firstMatchMsg, h1, h2, h3, h4]
        · by_cases h5 : s < 120 ∧ d < 80
          · simp [firstMatchMsg, h1, h2, h3, h4, h5]
          · by_cases h6 : s < 90 ∨ d < 60
            · simp [firstMatchMsg, h1, h2, h3, h4, h5, h6]
            · simp [firstMatchMsg, h1, h2, h3, h4, h5, h6]

/-- Claim C10: the first five bands of the blood-pressure cascade are
exhaustive over the integers, so the "low BP" branch and the final
"BP recorded" fallback are unreachable: no input ever receives either
message. -/
theorem bp_low_branch_unreachable (s d : Int) :
    bpClassify s d ≠ lowBpMsg ∧ bpClassify s d ≠ recordedBpMsg := by
  unfold bpClassify
  split_ifs <;>
    refine ⟨?_, ?_⟩ <;>
    first
      | decide
      | (exfalso; omega)

set_option maxHeartbeats 1600000 in
/-- Claim C4: the BMI categorization partitions the value line by
half-open intervals exactly as documented; in particular 18.5 is Normal
and 18.49 is Underweight. -/
theorem bmi_category_boundaries (v : ℚ) :
    categorize_bmi v = categorizeBmiSpec v ∧
    categorize_bmi (37/2) = "Normal" ∧
    categorize_bmi (1849/100) = "Underweight" := by
  refine ⟨?_, by simp only [categorize_bmi]; norm_num, by simp only [categorize_bmi]; norm_num⟩
  unfold categorize_bmi categorizeBmiSpec
  split_ifs <;> first
    | rfl
    | (exfalso
       simp only [not_and_or, not_lt, not_le] at *
       try casesm* _ ∨ _
       all_goals linarith)

/-! ## Claim theorems for the BMI calculator and height conversion -/

/-- Claim C5: `calculate_bmi` returns weight divided by the squared
height in metres, rounded to one decimal place, and the empty sentinel on
non-numeric input or a zero height; in particular 70 kg at 175 cm gives
22.9 and a zero height gives the sentinel. -/
theorem compute_bmi_correct (w h : ℚ) (hne : h ≠ 0) :
    calculate_bmi (some w) (some h) = some (pyRound1 (w / (h / 100) ^ 2)) ∧
    calculate_bmi (some w) none = none ∧
    calculate_bmi none (some h) = none ∧
    calculate_bmi (some 70) (some 175) = some (229/10) ∧
    calculate_bmi (some 70) (some 0) = none := by
  refine ⟨by simp [calculate_bmi, hne], rfl, rfl, ?_, by simp [calculate_bmi]⟩
  simp only [calculate_bmi]
  norm_num [pyRound1, round_eq]

/-- Witness for C5 at weight 70 and height 175. -/
theorem compute_bmi_correct_witness :
    calculate_bmi (some 70) (some 175) = some (pyRound1 (70 / ((175 : ℚ) / 100) ^ 2)) ∧
    calculate_bmi (some (70 : ℚ)) none = none ∧
    calculate_bmi none (some (175 : ℚ)) = none ∧
    calculate_bmi (some 70) (some 175) = some (229/10) ∧
    calculate_bmi (some 70) (some 0) = none :=
  compute_bmi_correct 70 175 (by norm_num)

/-- Claim C8: the height conversion extracts the numeric tokens and
dispatches on their count exactly as documented, and the documented
examples evaluate as claimed: 5 feet 6 inches and 5.5 feet both give
167.64 cm, a bare 170 is returned unchanged, and a non-numeric text gives
the null sentinel. -/
theorem height_conversion_policy (s : String) :
    feet_to_cm s = heightToCmSpec s ∧
    feet_to_cm sample56 = some (4191/25) ∧
    feet_to_cm "170" = some 170 ∧
    feet_to_cm "5.5" = some (4191/25) ∧
    feet_to_cm "abc" = none := by
  refine ⟨?_, ?_, ?_, ?_, ?_⟩
  · rcases hte : extractNumbers s with _ | ⟨a, _ | ⟨b, _ | ⟨c, t⟩⟩⟩ <;>
      simp [feet_to_cm, heightToCmSpec, hte]
  · have ht : tokenizePairs (cleanHeight sample56) = [(['5'], []), (['6'], [])] := by decide
    have hex : extractNumbers sample56 = [tokenVal (['5'], []), tokenVal (['6'], [])] := by
      unfold extractNumbers
      rw [ht]
      rfl
    have h5 : digitsToNat ['5'] = 5 := by decide
    have h6 : digitsToNat ['6'] = 6 := by decide
    unfold feet_to_cm
    rw [hex]
    show some ((tokenVal (['5'], []) * 12 + tokenVal (['6'], [])) * (254/100)) = some (4191/25)
    simp only [tokenVal, h5, h6]
    norm_num [digitsToNat]
  · have ht : tokenizePairs (cleanHeight "170") = [(['1', '7', '0'], [])] := by decide
    have hex : extractNumbers "170" = [tokenVal (['1', '7', '0'], [])] := by
      unfold extractNumbers
      rw [ht]
      rfl
    have h170 : digitsToNat ['1', '7', '0'] = 170 := by decide
    unfold feet_to_cm
    rw [hex]
    show (if tokenVal (['1', '7', '0'], []) > 10 then some (tokenVal (['1', '7', '0'], []))
          else some (tokenVal (['1', '7', '0'], []) * (3048/100))) = some 170
    simp only [tokenVal, h170]
    norm_num [digitsToNat]
  · have ht : tokenizePairs (cleanHeight "5.5") = [(['5'], ['5'])] := by decide
    have hex : extractNumbers "5.5" = [tokenVal (['5'], ['5'])] := by
      unfold extractNumbers
      rw [ht]
      rfl
    have h5 : digitsToNat ['5'] = 5 := by decide
    unfold feet_to_cm
    rw [hex]
    show (if tokenVal (['5'], ['5']) > 10 then some (tokenVal (['5'], ['5']))
          else some (tokenVal (['5'], ['5']) * (3048/100))) = some (4191/25)
    simp only [tokenVal, h5]
    norm_num
  · have ht : tokenizePairs (cleanHeight "abc") = [] := by decide
    unfold feet_to_cm extractNumbers
    rw [ht]
    rfl

/-! ## Claim theorems for record advisories -/

/-- Claim C6 counterexample: on a record with an absent blood-pressure
field the classifier does NOT return the empty sentinel: it returns the
invalid-format message, and that message appears in the record's
concatenated advisories. -/
theorem bp_absent_counterexample :
    analyze_blood_pressure pNoBp.bp ≠ "" ∧
    analyze_blood_pressure pNoBp.bp = invalidBpMsg ∧
    health_comments pNoBp = [invalidBpMsg] := by
  refine ⟨by decide, by decide, by decide⟩

/-- Claim C6 as amended: for a record with an absent blood-pressure field
the classifier returns the (nonempty) invalid-format message, which is
therefore included in the concatenated advisories, while the sugar and
BMI classifiers do return the empty sentinel on absent input and are
skipped. -/
theorem bp_absent_invalid_included (p : Patient) (h : p.bp = none) :
    analyze_blood_pressure p.bp = invalidBpMsg ∧
    invalidBpMsg ≠ "" ∧
    invalidBpMsg ∈ health_comments p ∧
    analyze_blood_sugar none = "" ∧
    analyze_bmi_health none = "" := by
  have hbp : analyze_blood_pressure p.bp = invalidBpMsg := by
    rw [h]
    rfl
  refine ⟨hbp, by decide, ?_, rfl, rfl⟩
  unfold health_comments
  rw [hbp, if_neg (show ¬(invalidBpMsg = "") by decide)]
  exact List.mem_append_left _
    (List.mem_append_left _ (List.mem_append_left _ (List.mem_singleton_self _)))

/-- Witness for the amended C6 on the concrete record `pNoBp`. -/
theorem bp_absent_invalid_included_witness :
    analyze_blood_pressure pNoBp.bp = invalidBpMsg ∧
    invalidBpMsg ≠ "" ∧
    invalidBpMsg ∈ health_comments pNoBp ∧
    analyze_blood_sugar none = "" ∧
    analyze_bmi_health none = "" :=
  bp_absent_invalid_included pNoBp rfl

/-! ## Claim theorems for the alert builder -/

/-- Invariant of the alert loop: every entry placed in the first list has
priority HIGH, every entry placed in the second does not. -/
theorem alertLoop_inv (ps : List Patient) :
    ∀ high medium : List AlertEntry,
      (∀ e ∈ high, e.priority = "HIGH") →
      (∀ e ∈ medium, e.priority ≠ "HIGH") →
      (∀ e ∈ (alertLoop ps high medium).1, e.priority = "HIGH") ∧
      (∀ e ∈ (alertLoop ps high medium).2, e.priority ≠ "HIGH") := by
  induction ps with
  | nil => intro high medium hh hm; exact ⟨hh, hm⟩
  | cons p ps ih =>
    intro high medium hh hm
    cases hc : classifyPatientAlert p with
    | none =>
      have hstep : alertLoop (p :: ps) high medium = alertLoop ps high medium := by
        simp only [alertLoop, hc]
      rw [hstep]
      exact ih high medium hh hm
    | some e =>
      have hstep : alertLoop (p :: ps) high medium =
          if e.priority = "HIGH" then alertLoop ps (high ++ [e]) medium
          else alertLoop ps high (medium ++ [e]) := by
        simp only [alertLoop, hc]
      by_cases hp : e.priority = "HIGH"
      · rw [hstep, if_pos hp]
        refine ih (high ++ [e]) medium ?_ hm
        intro x hx
        rcases List.mem_append.mp hx with hx | hx
        · exact hh x hx
        · rw [List.mem_singleton.mp hx]; exact hp
      · rw [hstep, if_neg hp]
        refine ih high (medium ++ [e]) hh ?_
        intro x hx
        rcases List.mem_append.mp hx with hx | hx
        · exact hm x hx
        · rw [List.mem_singleton.mp hx]; exact hp

/-- Claim C2: no alert entry ever appears in both the HIGH and the MEDIUM
band, and the record with systolic 190 and sugar 6.0 lands only in the
HIGH group with the hypertensive-crisis advisory among its reasons. -/
theorem alerts_bands_disjoint (ps : List Patient) :
    List.Disjoint (buildAlerts ps).1 (buildAlerts ps).2 ∧
    buildAlerts [pCrit] = ([eCrit], []) ∧
    crisisBpMsg ∈ eCrit.alerts := by
  obtain ⟨h1, h2⟩ :=
    alertLoop_inv ps [] [] (by intro e he; cases he) (by intro e he; cases he)
  refine ⟨?_, ?_, by decide⟩
  · intro e he1 he2
    exact (h2 e he2) (h1 e he1)
  · have hsg : analyze_blood_sugar pCrit.sugar = borderSugarMsg := by
      show analyze_blood_sugar (some 6) = borderSugarMsg
      simp only [analyze_blood_sugar]
      norm_num
    have hcl : classifyPatientAlert pCrit = some eCrit := by
      unfold classifyPatientAlert
      rw [hsg]
      decide
    simp [buildAlerts, alertLoop, hcl, eCrit]

/-- Claim C3, evaluated on the code: a record whose blood pressure lies
in the clinical HIGH band (150 over 95) or the clinical MEDIUM band (135
over 85) produces NO alert at all, because the alert builder greps the
advisory text for keywords the blood-pressure classifier never emits. -/
theorem alerts_keyword_dead :
    bpClassify 150 95 = highBpMsg ∧
    classifyPatientAlert pHighBand = none ∧
    buildAlerts [pHighBand] = ([], []) ∧
    bpClassify 135 85 = medBpMsg ∧
    classifyPatientAlert pMedBand = none := by
  refine ⟨by decide, by decide, by decide, by decide, by decide⟩

/-! ## Claim theorems for the aggregator -/

/-- Claim C7 counterexample: on the empty collection the summary
operation produces no report at all (the source returns early), so it
does not return zero percentages. -/
theorem summarize_empty_counterexample : print_summary_report [] = none := rfl

/-- Claim C7 as amended: the aggregator guards the empty collection by
returning early with no report, so no division by zero ever happens; on
every nonempty collection it does produce a report. -/
theorem summarize_empty_guard (ps : List Patient) (h : ps ≠ []) :
    (print_summary_report ps).isSome = true ∧ print_summary_report [] = none := by
  refine ⟨?_, rfl⟩
  have hne : ps.isEmpty = false := by
    cases ps with
    | nil => exact absurd rfl h
    | cons a l => rfl
  unfold print_summary_report
  rw [hne]
  simp

/-- Witness for the amended C7 on a one-record collection. -/
theorem summarize_empty_guard_witness :
    (print_summary_report [pNoBp]).isSome = true ∧ print_summary_report [] = none :=
  summarize_empty_guard [pNoBp] (List.cons_ne_nil _ _)

/-- Claim C9: the summary operation never mutates the record collection
it reads, and running it twice on the unchanged collection yields the
identical report. -/
theorem summarize_read_only_idempotent (data : List Patient) :
    (print_summary_report_run data).1 = data ∧
    (print_summary_report_run (print_summary_report_run data).1).2 =
      (print_summary_report_run data).2 :=
  ⟨rfl, rfl⟩
